import Mathlib

/-!
Shallow embedding of the address-fixer validation core
(src/normalization/text.py, src/validation/postal_codes.py,
src/validation/rules.py, src/parsing/address.py, src/pipeline.py).

Python strings are modelled as Lean `String` (with the core text
operations defined on `List Char`).  The Unicode character classes the
source consults through `str.lower`, `unicodedata` (NFD + category Mn),
`str.isdigit`, `str.isalpha`, `str.isupper` and `str.isspace` are
modelled by finite tables covering the character repertoire relevant to
Spanish address data; characters outside the tables behave as inert
(identity under lowering/decomposition, not marks, not digits), which is
how Python treats them as well for the code points that matter here.
Notably the `str.isdigit` table records that Python accepts non-ASCII
digit characters such as the superscript two (U+00B2) and the
Arabic-Indic digits, which Python's `"²".isdigit()` really does.
-/

namespace AddressFixer

/-- Characters Python's `str.isspace` (hence `str.split()` / `str.strip()`)
treats as whitespace, restricted to the ones that can occur here. -/
def pySpaceChars : List Char :=
  [' ', '\t', '\n', '\r', '\x0b', '\x0c', '\u00A0']

def isSpacePy (c : Char) : Bool := pySpaceChars.contains c

/-- Case mapping table for `str.lower`: ASCII plus the accented Latin
uppercase letters occurring in Spanish place names. -/
def lowerTable : List (Char × Char) :=
  [('A','a'), ('B','b'), ('C','c'), ('D','d'), ('E','e'), ('F','f'),
   ('G','g'), ('H','h'), ('I','i'), ('J','j'), ('K','k'), ('L','l'),
   ('M','m'), ('N','n'), ('O','o'), ('P','p'), ('Q','q'), ('R','r'),
   ('S','s'), ('T','t'), ('U','u'), ('V','v'), ('W','w'), ('X','x'),
   ('Y','y'), ('Z','z'),
   ('Á','á'), ('À','à'), ('É','é'), ('È','è'), ('Í','í'), ('Ì','ì'),
   ('Ï','ï'), ('Ó','ó'), ('Ò','ò'), ('Ú','ú'), ('Ù','ù'), ('Ü','ü'),
   ('Ñ','ñ'), ('Ç','ç')]

def pyLowerChar (c : Char) : Char := (lowerTable.lookup c).getD c

def pyLower (l : List Char) : List Char := l.map pyLowerChar

/-- NFD canonical decompositions (base letter + combining mark) for the
accented letters in scope.  Characters not listed decompose to
themselves. -/
def decompTable : List (Char × List Char) :=
  [('á', ['a', '\u0301']), ('à', ['a', '\u0300']),
   ('é', ['e', '\u0301']), ('è', ['e', '\u0300']),
   ('í', ['i', '\u0301']), ('ì', ['i', '\u0300']),
   ('ï', ['i', '\u0308']),
   ('ó', ['o', '\u0301']), ('ò', ['o', '\u0300']),
   ('ú', ['u', '\u0301']), ('ù', ['u', '\u0300']),
   ('ü', ['u', '\u0308']),
   ('ñ', ['n', '\u0303']), ('ç', ['c', '\u0327']),
   ('Á', ['A', '\u0301']), ('À', ['A', '\u0300']),
   ('É', ['E', '\u0301']), ('È', ['E', '\u0300']),
   ('Í', ['I', '\u0301']), ('Ì', ['I', '\u0300']),
   ('Ï', ['I', '\u0308']),
   ('Ó', ['O', '\u0301']), ('Ò', ['O', '\u0300']),
   ('Ú', ['U', '\u0301']), ('Ù', ['U', '\u0300']),
   ('Ü', ['U', '\u0308']),
   ('Ñ', ['N', '\u0303']), ('Ç', ['C', '\u0327'])]

def nfdChar (c : Char) : List Char := (decompTable.lookup c).getD [c]

/-- Combining marks (Unicode category Mn) produced by `decompTable`. -/
def mnChars : List Char := ['\u0300', '\u0301', '\u0303', '\u0308', '\u0327']

def isMn (c : Char) : Bool := mnChars.contains c

/-- `remove_accents` (text.py): NFD-decompose, drop category-Mn chars. -/
def remove_accents (l : List Char) : List Char :=
  (l.flatMap nfdChar).filter (fun c => !isMn c)

/-- One step of `str.split()` modelled as a right fold: `acc.1` is the
word being accumulated to the right of the cursor, `acc.2` the completed
words. -/
def swAux (c : Char) (acc : List Char × List (List Char)) :
    List Char × List (List Char) :=
  if isSpacePy c then
    ([], if acc.1.isEmpty then acc.2 else acc.1 :: acc.2)
  else
    (c :: acc.1, acc.2)

def swWrap (r : List Char × List (List Char)) : List (List Char) :=
  if r.1.isEmpty then r.2 else r.1 :: r.2

/-- Python `str.split()` (split on runs of whitespace, no empty words). -/
def splitWs (l : List Char) : List (List Char) :=
  swWrap (l.foldr swAux ([], []))

/-- Python `" ".join(ws)`. -/
def joinSp : List (List Char) → List Char
  | [] => []
  | w :: ws => w ++ joinSpAux ws
where
  joinSpAux : List (List Char) → List Char
    | [] => []
    | w :: ws => ' ' :: (w ++ joinSpAux ws)

/-- Python `str.strip()`: drop whitespace from both ends. -/
def pyStrip (l : List Char) : List Char :=
  ((l.dropWhile isSpacePy).reverse.dropWhile isSpacePy).reverse

/-- `normalize_for_comparison` (text.py): lowercase, remove accents,
collapse whitespace runs via `" ".join(text.split())`, strip. -/
def normalize_for_comparison (l : List Char) : List Char :=
  pyStrip (joinSp (splitWs (remove_accents (pyLower l))))

/-- `normalize_city` (text.py) — same as `normalize_for_comparison`. -/
def normalize_city (l : List Char) : List Char := normalize_for_comparison l

/-- String-level `normalize_city`. -/
def normalizeCityS (s : String) : String := ⟨normalize_city s.data⟩

/-- `str.strip` at `String` level. -/
def pyStripS (s : String) : String := ⟨pyStrip s.data⟩

/-- Python truthiness test `not s or not s.strip()` used by the validator
for "blank" inputs. -/
def pyBlank (s : String) : Bool := s.isEmpty || (pyStrip s.data).isEmpty

/-- Characters for which Python's `str.isdigit` is true, restricted to a
finite repertoire: the ASCII digits plus genuinely-accepted non-ASCII
digit characters (superscripts and the Arabic-Indic digits). -/
def pyDigitChars : List Char :=
  ['0', '1', '2', '3', '4', '5', '6', '7', '8', '9',
   '¹', '²', '³',
   '٠', '١', '٢', '٣', '٤', '٥', '٦', '٧', '٨', '٩']

def isDigitPy (c : Char) : Bool := pyDigitChars.contains c

/-- Python `s.isdigit()`: non-empty and every character a digit. -/
def pyIsDigit (s : String) : Bool := !s.isEmpty && s.data.all isDigitPy

/-- Letters for Python's `str.isalpha`, finite repertoire: ASCII letters
plus the accented letters of `lowerTable`/`decompTable`. -/
def pyAlphaChars : List Char :=
  (lowerTable.map Prod.fst) ++ (lowerTable.map Prod.snd)

def isAlphaPy (c : Char) : Bool := pyAlphaChars.contains c

/-- Python `str.isupper` on a single character (finite repertoire). -/
def isUpperPy (c : Char) : Bool := (lowerTable.map Prod.fst).contains c

/-- Python `c.isalnum()` (alphabetic or digit, finite repertoire). -/
def isAlnumPy (c : Char) : Bool := isAlphaPy c || isDigitPy c

def dedupFirstAux (seen : List String) : List String → List String
  | [] => []
  | x :: xs =>
    if seen.contains x then dedupFirstAux seen xs
    else x :: dedupFirstAux (x :: seen) xs

/-- `list(set(xs))` from `extract_city_variants`.  Python's set order is
unspecified; the model fixes the first-occurrence order, and the claims'
"order produced by extract_city_variants" refers to this model order. -/
def dedupFirst (l : List String) : List String := dedupFirstAux [] l

/-- Stopwords filtered out of city-name variants (text.py). -/
def stopwords : List String :=
  ["de", "del", "la", "el", "los", "las", "l", "d", "en", "a"]

/-- `normalized.replace("-", " ").replace("'", " ")` acts per character. -/
def replaceHyphApos (c : Char) : Char :=
  if c = '-' || c = '\'' then ' ' else c

/-- `extract_city_variants` (text.py): the normalized full name plus each
meaningful word (not a stopword, length > 2), duplicates removed. -/
def extract_city_variants (city : String) : List String :=
  let normalized := normalizeCityS city
  let words := (splitWs (normalized.data.map replaceHyphApos)).map
    (fun w => (⟨w⟩ : String))
  let meaningful_words := words.filter
    (fun w => !stopwords.contains w && decide (w.length > 2))
  dedupFirst (normalized :: meaningful_words)

/-! ### Substring operations (Python `in`, `str.split(sep)`, `str.replace`) -/

/-- Python `pat in s` (substring containment). -/
def containsSub (pat : List Char) : List Char → Bool
  | [] => pat.isEmpty
  | c :: rest => pat.isPrefixOf (c :: rest) || containsSub pat rest

def consHead (c : Char) : List (List Char) → List (List Char)
  | [] => [[c]]
  | w :: ws => (c :: w) :: ws

/-- Worker for `splitSub`: each step consumes at least one character, so
fuel equal to the list length makes the fuel-0 branch unreachable. -/
def splitSubGo (pat : List Char) : Nat → List Char → List (List Char)
  | _, [] => [[]]
  | 0, l => [l]
  | fuel + 1, c :: rest =>
    if pat.isPrefixOf (c :: rest) && !pat.isEmpty then
      [] :: splitSubGo pat fuel ((c :: rest).drop pat.length)
    else
      consHead c (splitSubGo pat fuel rest)

/-- Python `s.split(sep)` for a non-empty separator. -/
def splitSub (pat l : List Char) : List (List Char) :=
  splitSubGo pat l.length l

/-- Worker for `removeSub`, fuelled like `splitSubGo`. -/
def removeSubGo (pat : List Char) : Nat → List Char → List Char
  | _, [] => []
  | 0, l => l
  | fuel + 1, c :: rest =>
    if pat.isPrefixOf (c :: rest) && !pat.isEmpty then
      removeSubGo pat fuel ((c :: rest).drop pat.length)
    else
      c :: removeSubGo pat fuel rest

/-- Python `s.replace(pat, "")` (left-to-right, non-overlapping); the
empty pattern (never reached: the source guards every `replace` call by
a truthiness check or a literal) is the identity. -/
def removeSub (pat l : List Char) : List Char :=
  removeSubGo pat l.length l

/-! ### City–postal matcher (src/validation/postal_codes.py) -/

inductive ValidationStatus where
  | VALID
  | INVALID
  | UNKNOWN_CITY
  | MISSING_DATA
deriving DecidableEq, Repr

/-- `ValidationStatus.value` (the enum's string payload). -/
def ValidationStatus.value : ValidationStatus → String
  | .VALID => "valid"
  | .INVALID => "invalid"
  | .UNKNOWN_CITY => "unknown_city"
  | .MISSING_DATA => "missing_data"

structure CPValidationResult where
  status : ValidationStatus
  message : String
  province_code : Option String := none
  expected_cities : Option (List String) := none
deriving DecidableEq, Repr

/-- The three lookup structures of `PostalCodeValidator`, as association
lists (Python dicts with string keys); the loader that fills them from
`codciu.txt` is not modelled, so the maps are arbitrary. -/
structure PostalCodeValidator where
  province_to_cities : List (String × List String) := []
  city_to_province : List (String × String) := []
  variant_to_cities : List (String × List String) := []
deriving Repr

/-- Python dict membership/`get`: first binding for the key. -/
def dictGet {α : Type} (m : List (String × α)) (k : String) : Option α :=
  m.lookup k

/-- The inner `for matched_city in matching_cities` loop of `validate`:
returns the first city of the variant bucket whose normalized form maps
to the input province, if any. -/
def findValidCity (v : PostalCodeValidator) (province : String) :
    List String → Option String
  | [] => none
  | matched_city :: rest =>
    match dictGet v.city_to_province (normalizeCityS matched_city) with
    | some expected_province =>
      if expected_province = province then some matched_city
      else findValidCity v province rest
    | none => findValidCity v province rest

/-- The outer `for variant in city_variants` loop of `validate`. -/
def variantLoop (v : PostalCodeValidator) (city province : String) :
    List String → CPValidationResult
  | [] =>
    { status := .UNKNOWN_CITY
      message := "City '" ++ city ++ "' not found in database (province "
        ++ province ++ ")"
      province_code := some province
      expected_cities := some ((dictGet v.province_to_cities province).getD []) }
  | variant :: rest =>
    match dictGet v.variant_to_cities variant with
    | none => variantLoop v city province rest
    | some matching_cities =>
      match findValidCity v province matching_cities with
      | some matched_city =>
        { status := .VALID
          message := "City '" ++ city ++ "' matches '" ++ matched_city
            ++ "' in province " ++ province
          province_code := some province }
      | none =>
        { status := .INVALID
          message := "City '" ++ city ++ "' found but not in province "
            ++ province
          province_code := some province
          expected_cities := some ((dictGet v.province_to_cities province).getD []) }

/-- `PostalCodeValidator.validate` (postal_codes.py lines 139–232). -/
def PostalCodeValidator.validate (v : PostalCodeValidator)
    (city postal_code : String) : CPValidationResult :=
  if pyBlank city then
    { status := .MISSING_DATA, message := "City is empty" }
  else if pyBlank postal_code then
    { status := .MISSING_DATA, message := "Postal code is empty" }
  else
    let postal_code := pyStripS postal_code
    if !pyIsDigit postal_code || postal_code.length ≠ 5 then
      { status := .MISSING_DATA
        message := "Invalid postal code format: " ++ postal_code }
    else
      let province : String := ⟨postal_code.data.take 2⟩
      match dictGet v.province_to_cities province with
      | none =>
        { status := .INVALID
          message := "Unknown province code: " ++ province
          province_code := some province }
      | some _ =>
        let normalized_city := normalizeCityS city
        match dictGet v.city_to_province normalized_city with
        | some expected_province =>
          if expected_province = province then
            { status := .VALID
              message := "City matches postal code province"
              province_code := some province }
          else
            { status := .INVALID
              message := "City '" ++ city ++ "' belongs to province "
                ++ expected_province ++ ", not " ++ province
              province_code := some province
              expected_cities :=
                some ((dictGet v.province_to_cities province).getD []) }
        | none =>
          variantLoop v city province (extract_city_variants city)

/-- `PostalCodeValidator.get_cities_for_province`. -/
def PostalCodeValidator.get_cities_for_province (v : PostalCodeValidator)
    (province : String) : List String :=
  (dictGet v.province_to_cities province).getD []

/-- `PostalCodeValidator._split_city_names`.  `none` models the
`IndexError` Python raises when a bare-hyphen split yields an empty first
or second part that is then indexed by `parts[0][0]` / `parts[1][0]`. -/
def split_city_names (city : String) : Option (List String) :=
  if ",l'".data.isSuffixOf city.data then
    let base : String := ⟨city.data.take (city.data.length - 3)⟩
    some [base, "l'" ++ base]
  else if containsSub ",Las".data city.data then
    let parts := splitSub ",Las".data city.data
    let base := pyStrip (parts.headD [])
    some [⟨base⟩, "Las " ++ (⟨base⟩ : String)]
  else if containsSub " - ".data city.data then
    some ((splitSub " - ".data city.data).map (fun n => (⟨pyStrip n⟩ : String)))
  else if containsSub "-".data city.data
      && !((splitSub "-".data city.data).headD []).any isSpacePy then
    let parts := splitSub "-".data city.data
    match parts with
    | [p0, p1] =>
      match p0.head? with
      | none => none
      | some c0 =>
        if !isUpperPy c0 then some [city]
        else
          match p1.head? with
          | none => none
          | some c1 =>
            if !isUpperPy c1 then some [city]
            else if ((p0.length : Int) - (p1.length : Int)).natAbs < 5
                && p0.length < 12 then
              some [⟨pyStrip p0⟩, ⟨pyStrip p1⟩]
            else
              some [city]
    | _ => some [city]
  else
    some [city]

/-! ### Parsed addresses (src/parsing/address.py) -/

structure ParsedAddress where
  raw : String
  road : Option String := none
  house_number : Option String := none
  unit : Option String := none
  city : Option String := none
  postcode : Option String := none
  state_district : Option String := none
  country : Option String := none
deriving DecidableEq, Repr

/-- Python truthiness of an optional string (`None` and `""` are falsy). -/
def optTruthy : Option String → Bool
  | none => false
  | some s => !s.isEmpty

/-- `ParsedAddress.has_postcode`: `postcode is not None and len(postcode) > 0`
(note: no trimming). -/
def ParsedAddress.has_postcode (p : ParsedAddress) : Bool :=
  match p.postcode with
  | none => false
  | some s => decide (0 < s.length)

/-- `ParsedAddress.has_city`: `city is not None and len(city) > 0`. -/
def ParsedAddress.has_city (p : ParsedAddress) : Bool :=
  match p.city with
  | none => false
  | some s => decide (0 < s.length)

/-- `ParsedAddress.has_road`: `road is not None and len(road) > 0`. -/
def ParsedAddress.has_road (p : ParsedAddress) : Bool :=
  match p.road with
  | none => false
  | some s => decide (0 < s.length)

/-- Python `", ".join(parts)`. -/
def joinCommaSp : List String → String
  | [] => ""
  | s :: ss => s ++ joinCommaSpAux ss
where
  joinCommaSpAux : List String → String
    | [] => ""
    | s :: ss => ", " ++ s ++ joinCommaSpAux ss

/-- The label-mapping loop of `parse` (address.py lines 73–87): first
value wins per label, `level`/`unit`/`staircase` values are collected in
order.  The state is the address under construction plus `unit_parts`. -/
def componentFold (acc : ParsedAddress × List String) :
    List (String × String) → ParsedAddress × List String
  | [] => acc
  | (value, label) :: rest =>
    let r := acc.1
    let units := acc.2
    if label = "road" && r.road.isNone then
      componentFold ({ r with road := some value }, units) rest
    else if label = "house_number" && r.house_number.isNone then
      componentFold ({ r with house_number := some value }, units) rest
    else if label = "level" || label = "unit" || label = "staircase" then
      componentFold (r, units ++ [value]) rest
    else if label = "city" && r.city.isNone then
      componentFold ({ r with city := some value }, units) rest
    else if label = "postcode" && r.postcode.isNone then
      componentFold ({ r with postcode := some value }, units) rest
    else if label = "state_district" && r.state_district.isNone then
      componentFold ({ r with state_district := some value }, units) rest
    else if label = "country" && r.country.isNone then
      componentFold ({ r with country := some value }, units) rest
    else
      componentFold (r, units) rest

/-- `parse` (address.py).  The external libpostal `parse_address` call is
an oracle parameter producing (value, label) pairs. -/
def parse (parse_address : String → List (String × String))
    (raw_address : String) : ParsedAddress :=
  if pyBlank raw_address then { raw := "" }
  else
    let raw := pyStripS raw_address
    let components := parse_address raw
    let folded := componentFold ({ raw := raw }, []) components
    if !folded.2.isEmpty then
      { folded.1 with unit := some (joinCommaSp folded.2) }
    else folded.1

/-- `parse_or_use_existing` (address.py): caller-supplied city/postcode
override parsed values when non-blank. -/
def parse_or_use_existing (parse_address : String → List (String × String))
    (raw_address city postcode : String) : ParsedAddress :=
  let parsed := parse parse_address raw_address
  let parsed :=
    if !(pyBlank city) then { parsed with city := some (pyStripS city) }
    else parsed
  if !(pyBlank postcode) then
    { parsed with postcode := some (pyStripS postcode) }
  else parsed

/-! ### Hard rules (src/validation/rules.py) -/

inductive RuleViolation where
  | NONE
  | EMPTY_ADDRESS
  | TOO_SHORT
  | INVALID_POSTCODE_FORMAT
  | INVALID_POSTCODE_PROVINCE
  | ONLY_NUMBERS
deriving DecidableEq, Repr

structure RuleResult where
  is_valid : Bool
  violation : RuleViolation
  message : String
deriving DecidableEq, Repr

/-- `f"{i:02d}"` for `i < 100`. -/
def twoDigit (i : Nat) : String :=
  if i < 10 then "0" ++ toString i else toString i

/-- `VALID_PROVINCE_CODES = {f"{i:02d}" for i in range(1, 53)}`. -/
def VALID_PROVINCE_CODES : List String :=
  (List.range 52).map (fun k => twoDigit (k + 1))

def check_postcode_format (postcode : Option String) : RuleResult :=
  if !optTruthy postcode then
    { is_valid := true, violation := .NONE, message := "No postcode provided" }
  else
    let pc := pyStripS (postcode.getD "")
    if !pyIsDigit pc then
      { is_valid := false, violation := .INVALID_POSTCODE_FORMAT
        message := "Postcode '" ++ pc ++ "' contains non-numeric characters" }
    else if pc.length ≠ 5 then
      { is_valid := false, violation := .INVALID_POSTCODE_FORMAT
        message := "Postcode '" ++ pc ++ "' must be exactly 5 digits" }
    else
      { is_valid := true, violation := .NONE, message := "Valid postcode format" }

def check_postcode_province (postcode : Option String) : RuleResult :=
  if !optTruthy postcode || (postcode.getD "").length < 2 then
    { is_valid := true, violation := .NONE, message := "No postcode to check" }
  else
    let province : String := ⟨(postcode.getD "").data.take 2⟩
    if !VALID_PROVINCE_CODES.contains province then
      { is_valid := false, violation := .INVALID_POSTCODE_PROVINCE
        message := "Province code '" ++ province
          ++ "' is not valid (must be 01-52)" }
    else
      { is_valid := true, violation := .NONE
        message := "Valid province code: " ++ province }

def check_not_empty (parsed : ParsedAddress) : RuleResult :=
  if pyBlank parsed.raw then
    { is_valid := false, violation := .EMPTY_ADDRESS
      message := "Address is empty" }
  else
    { is_valid := true, violation := .NONE, message := "Address has content" }

/-- `check_minimum_length` with its default threshold `min_chars = 5`. -/
def check_minimum_length (parsed : ParsedAddress) (min_chars : Nat) :
    RuleResult :=
  let meaningful := (parsed.raw.data.filter isAlnumPy).length
  if meaningful < min_chars then
    { is_valid := false, violation := .TOO_SHORT
      message := "Address too short (" ++ toString meaningful
        ++ " chars, minimum " ++ toString min_chars ++ ")" }
  else
    { is_valid := true, violation := .NONE
      message := "Address length OK (" ++ toString meaningful ++ " chars)" }

def check_not_only_numbers (parsed : ParsedAddress) : RuleResult :=
  let text := parsed.raw.data
  let text :=
    if optTruthy parsed.postcode then
      removeSub (parsed.postcode.getD "").data text
    else text
  let text := pyStrip (removeSub "-".data (removeSub ".".data
    (removeSub ",".data text)))
  let has_letters := text.any isAlphaPy
  if !has_letters then
    { is_valid := false, violation := .ONLY_NUMBERS
      message := "Address contains only numbers" }
  else
    { is_valid := true, violation := .NONE
      message := "Address contains letters" }

def validate_hard_rules (parsed : ParsedAddress) : List RuleResult :=
  [check_not_empty parsed,
   check_minimum_length parsed 5,
   check_not_only_numbers parsed,
   check_postcode_format parsed.postcode,
   check_postcode_province parsed.postcode]

def get_violations (parsed : ParsedAddress) : List RuleResult :=
  (validate_hard_rules parsed).filter (fun r => !r.is_valid)

/-! ### Pipeline (src/pipeline.py); the LLM reviewer (src/llm/reviewer.py)
is an external collaborator, modelled as an oracle. -/

inductive AddressStatus where
  | VALID
  | VALID_NORMALIZED
  | INVALID_FORMAT
  | INVALID_MISMATCH
  | NONSENSE
  | UNKNOWN
  | NEEDS_REVIEW
deriving DecidableEq, Repr

def AddressStatus.value : AddressStatus → String
  | .VALID => "valid"
  | .VALID_NORMALIZED => "valid_normalized"
  | .INVALID_FORMAT => "invalid_format"
  | .INVALID_MISMATCH => "invalid_mismatch"
  | .NONSENSE => "nonsense"
  | .UNKNOWN => "unknown"
  | .NEEDS_REVIEW => "needs_review"

inductive AddressIntent where
  | VALID_ATTEMPT
  | GIBBERISH
  | REFUSAL
  | TEST_DATA
  | UNCLEAR
deriving DecidableEq, Repr

def AddressIntent.value : AddressIntent → String
  | .VALID_ATTEMPT => "valid_attempt"
  | .GIBBERISH => "gibberish"
  | .REFUSAL => "refusal"
  | .TEST_DATA => "test_data"
  | .UNCLEAR => "unclear"

structure NonsenseResult where
  intent : AddressIntent
  confidence : String
  explanation : String
deriving DecidableEq, Repr

structure CityValidationResult where
  is_valid : Bool
  normalized_city : Option String
  explanation : String
deriving DecidableEq, Repr

/-- The external LLM reviewer's interface (check_nonsense / validate_city),
as arbitrary functions. -/
structure LLMOracle where
  check_nonsense : String → NonsenseResult
  validate_city : String → String → List String → CityValidationResult

/-- The pipeline's `ValidationResult` dataclass. -/
structure PLValidationResult where
  raw_address : String
  raw_city : String
  raw_postcode : String
  parsed : ParsedAddress
  status : AddressStatus
  message : String
  normalized_city : Option String := none
  normalized_postcode : Option String := none
  rule_violations : List String := []
  city_postal_status : Option String := none
  llm_intent : Option String := none
  llm_confidence : Option String := none
deriving DecidableEq, Repr

/-- Stage 5 of `AddressPipeline.validate` (pipeline.py lines 215–230):
the final fallback plus the final UNKNOWN → NEEDS_REVIEW guard. -/
def pipelineStage5 (use_llm : Bool) (parsed : ParsedAddress)
    (result : PLValidationResult) : PLValidationResult :=
  let result :=
    if use_llm && result.status = AddressStatus.UNKNOWN then
      if parsed.has_city || parsed.has_postcode then
        { result with status := .VALID
                      message := "Appears to be a valid address attempt" }
      else
        { result with status := .NEEDS_REVIEW
                      message := "Valid attempt but missing city/postcode" }
    else result
  if result.status = AddressStatus.UNKNOWN then
    { result with status := .NEEDS_REVIEW
                  message := "Could not validate without LLM" }
  else result

/-- Stage 4 of `AddressPipeline.validate` (pipeline.py lines 172–213):
city–postal matching; a MISSING_DATA outcome matches no branch and falls
through to stage 5, as in the source. -/
def pipelineStage4 (llm : LLMOracle) (use_llm : Bool)
    (v : PostalCodeValidator) (parsed : ParsedAddress)
    (result : PLValidationResult) : PLValidationResult :=
  if parsed.has_city && parsed.has_postcode then
    let city_result := v.validate (parsed.city.getD "") (parsed.postcode.getD "")
    let result := { result with
      city_postal_status := some city_result.status.value }
    match city_result.status with
    | .VALID =>
      { result with status := .VALID
                    message := "City matches postal code province"
                    normalized_city := parsed.city
                    normalized_postcode := parsed.postcode }
    | .INVALID =>
      { result with status := .INVALID_MISMATCH
                    message := city_result.message }
    | .UNKNOWN_CITY =>
      if use_llm then
        let province_cities := v.get_cities_for_province
          ⟨(parsed.postcode.getD "").data.take 2⟩
        let llm_result := llm.validate_city (parsed.city.getD "")
          (parsed.postcode.getD "") province_cities
        let result := { result with llm_confidence := some "city_validation" }
        if llm_result.is_valid then
          { result with status := .VALID_NORMALIZED
                        message := "City validated by LLM: "
                          ++ llm_result.explanation
                        normalized_city :=
                          (if optTruthy llm_result.normalized_city then
                            llm_result.normalized_city
                          else parsed.city)
                        normalized_postcode := parsed.postcode }
        else
          { result with status := .NEEDS_REVIEW
                        message := "City unknown: " ++ llm_result.explanation }
      else
        { result with status := .NEEDS_REVIEW
                      message := "City not found in database" }
    | .MISSING_DATA => pipelineStage5 use_llm parsed result
  else pipelineStage5 use_llm parsed result

/-- Stage 3 of `AddressPipeline.validate` (pipeline.py lines 150–170):
LLM nonsense detection on the road (or the raw address). -/
def pipelineStage3 (llm : LLMOracle) (use_llm : Bool)
    (v : PostalCodeValidator) (parsed : ParsedAddress) (address : String)
    (result : PLValidationResult) : PLValidationResult :=
  let text_to_check := if parsed.has_road then parsed.road.getD "" else address
  if use_llm && !text_to_check.isEmpty then
    let nonsense_result := llm.check_nonsense text_to_check
    let result := { result with
      llm_intent := some nonsense_result.intent.value
      llm_confidence := some nonsense_result.confidence }
    if nonsense_result.intent = AddressIntent.GIBBERISH
        || nonsense_result.intent = AddressIntent.TEST_DATA then
      { result with status := .NONSENSE
                    message := "Street address is " ++ nonsense_result.intent.value
                      ++ ": " ++ nonsense_result.explanation }
    else if nonsense_result.intent = AddressIntent.REFUSAL then
      { result with status := .NONSENSE
                    message := "User refused to provide address: "
                      ++ nonsense_result.explanation }
    else pipelineStage4 llm use_llm v parsed result
  else pipelineStage4 llm use_llm v parsed result

/-- `AddressPipeline.validate` (pipeline.py lines 89–230).  The libpostal
parser and LLM reviewer are oracle parameters; `use_llm` is the
pipeline's `use_llm` flag; `v` its `postal_validator`. -/
def AddressPipeline.validate (pa : String → List (String × String))
    (llm : LLMOracle) (use_llm : Bool) (v : PostalCodeValidator)
    (address city postcode : String) : PLValidationResult :=
  let parsed := parse_or_use_existing pa address city postcode
  let result : PLValidationResult :=
    { raw_address := address, raw_city := city, raw_postcode := postcode
      parsed := parsed, status := .UNKNOWN, message := "" }
  let violations := get_violations parsed
  let result := { result with rule_violations := violations.map (·.message) }
  if !violations.isEmpty then
    let violation_types := violations.map (·.violation)
    if violation_types.contains RuleViolation.EMPTY_ADDRESS then
      { result with status := .INVALID_FORMAT, message := "Address is empty" }
    else if violation_types.contains RuleViolation.TOO_SHORT then
      { result with status := .INVALID_FORMAT, message := "Address too short" }
    else if violation_types.contains RuleViolation.ONLY_NUMBERS then
      { result with status := .INVALID_FORMAT
                    message := "Address contains only numbers" }
    else if violation_types.contains RuleViolation.INVALID_POSTCODE_FORMAT then
      { result with status := .INVALID_FORMAT
                    message := "Invalid postal code format" }
    else if violation_types.contains RuleViolation.INVALID_POSTCODE_PROVINCE then
      { result with status := .INVALID_FORMAT
                    message := "Invalid postal code province (must be 01-52)" }
    else pipelineStage3 llm use_llm v parsed address result
  else pipelineStage3 llm use_llm v parsed address result

/-! ## Lemmas about the text normalizer -/

/-- The per-character effect of `remove_accents ∘ lower`. -/
def pipeChar (c : Char) : List Char :=
  (nfdChar (pyLowerChar c)).filter (fun d => !isMn d)

theorem remove_accents_pyLower (l : List Char) :
    remove_accents (pyLower l) = l.flatMap pipeChar := by
  induction l with
  | nil => rfl
  | cons c l ih =>
    simp only [remove_accents, pyLower, List.map_cons, List.flatMap_cons,
      List.filter_append, List.flatMap_cons] at *
    rw [← ih]; rfl

theorem lookup_eq_none_of_not_mem {β : Type} (m : List (Char × β)) (k : Char)
    (h : k ∉ m.map Prod.fst) : m.lookup k = none := by
  induction m with
  | nil => rfl
  | cons e m ih =>
    simp only [List.map_cons, List.mem_cons, not_or] at h
    have hk : (k == e.1) = false := by
      simp only [beq_eq_false_iff_ne, ne_eq]; exact h.1
    simp [List.lookup, hk, ih h.2]

/-- Keys of the two character tables; every other character is inert. -/
def tableDoms : List Char := lowerTable.map Prod.fst ++ decompTable.map Prod.fst

theorem doms_check : tableDoms.all
    (fun c => (pipeChar c).all
      (fun d => decide (pyLowerChar d = d ∧ nfdChar d = [d]))) = true := by
  decide

theorem pyLowerChar_of_not_mem {c : Char}
    (h : c ∉ lowerTable.map Prod.fst) : pyLowerChar c = c := by
  unfold pyLowerChar
  rw [lookup_eq_none_of_not_mem _ _ h]; rfl

theorem nfdChar_of_not_mem {c : Char}
    (h : c ∉ decompTable.map Prod.fst) : nfdChar c = [c] := by
  unfold nfdChar
  rw [lookup_eq_none_of_not_mem _ _ h]; rfl

theorem pipeChar_inert {c d : Char} (hd : d ∈ pipeChar c) :
    pyLowerChar d = d ∧ nfdChar d = [d] ∧ isMn d = false := by
  have hmn : isMn d = false := by
    have := List.of_mem_filter hd
    simpa using this
  refine ⟨?_, ?_, hmn⟩ <;>
  · by_cases hc : c ∈ tableDoms
    · have hall := doms_check
      rw [List.all_eq_true] at hall
      have h2 := hall c hc
      rw [List.all_eq_true] at h2
      have h3 := h2 d hd
      rw [decide_eq_true_eq] at h3
      first
      | exact h3.1
      | exact h3.2
    · simp only [tableDoms, List.mem_append, not_or] at hc
      have h1 := pyLowerChar_of_not_mem hc.1
      have h2 := nfdChar_of_not_mem hc.2
      have : pipeChar c = if isMn c then [] else [c] := by
        simp [pipeChar, h1, h2, List.filter]
        rcases hb : isMn c <;> simp [hb]
      rw [this] at hd
      rcases hb : isMn c <;> rw [hb] at hd <;> simp at hd
      subst hd
      first
      | exact h1
      | exact h2

/-- A character produced by the lower+deaccent pipeline is a fixed point
of that pipeline. -/
theorem pipeChar_of_output {c d : Char} (hd : d ∈ pipeChar c) :
    pipeChar d = [d] := by
  obtain ⟨h1, h2, h3⟩ := pipeChar_inert hd
  simp [pipeChar, h1, h2, h3]

theorem pipeChar_space {c : Char} (hc : isSpacePy c = true) :
    pipeChar c = [c] := by
  have : pySpaceChars.all (fun c => decide (pipeChar c = [c])) = true := by
    decide
  rw [List.all_eq_true] at this
  have hmem : c ∈ pySpaceChars := by
    simpa [isSpacePy, List.contains, List.elem_eq_mem,
      decide_eq_true_eq] using hc
  simpa using this c hmem

/-- Words produced by `splitWs` are non-empty and whitespace-free, and
their characters come from the input. -/
theorem foldr_swAux_inv (l : List Char) (acc : List Char × List (List Char))
    (hacc1 : ∀ c ∈ acc.1, isSpacePy c = false ∧ c ∈ acc.1)
    (hacc2 : ∀ w ∈ acc.2, w ≠ [] ∧ ∀ c ∈ w, isSpacePy c = false) :
    (∀ c ∈ (l.foldr swAux acc).1,
        isSpacePy c = false ∧ (c ∈ l ∨ c ∈ acc.1)) ∧
    (∀ w ∈ (l.foldr swAux acc).2, w ≠ [] ∧ ∀ c ∈ w,
        isSpacePy c = false ∧ (c ∈ l ∨ c ∈ acc.1 ∨ ∃ w' ∈ acc.2, c ∈ w')) :=
  by
  induction l with
  | nil =>
    refine ⟨fun c hc => ⟨(hacc1 c hc).1, Or.inr hc⟩, fun w hw => ?_⟩
    exact ⟨(hacc2 w hw).1, fun c hc =>
      ⟨(hacc2 w hw).2 c hc, Or.inr (Or.inr ⟨w, hw, hc⟩)⟩⟩
  | cons a l ih =>
    obtain ⟨ih1, ih2⟩ := ih
    rcases hr : l.foldr swAux acc with ⟨r1, r2⟩
    rw [hr] at ih1 ih2
    simp only [List.foldr_cons, hr, swAux]
    rcases ha : isSpacePy a with _ | _
    · simp only [Bool.false_eq_true, if_neg, not_false_iff]
      constructor
      · intro c hc
        simp only [List.mem_cons] at hc
        rcases hc with rfl | hc
        · exact ⟨ha, Or.inl (List.mem_cons_self _ _)⟩
        · obtain ⟨hs, hm⟩ := ih1 c hc
          exact ⟨hs, hm.imp (List.mem_cons_of_mem _) id⟩
      · intro w hw
        obtain ⟨hne, hchar⟩ := ih2 w hw
        exact ⟨hne, fun c hc => ⟨(hchar c hc).1,
          ((hchar c hc).2).imp (List.mem_cons_of_mem _) id⟩⟩
    · simp only [if_pos]
      constructor
      · intro c hc
        simp at hc
      · intro w hw
        rcases he : r1.isEmpty with _ | _
        · rw [he] at hw
          simp only [Bool.false_eq_true, if_neg, not_false_iff,
            List.mem_cons] at hw
          rcases hw with rfl | hw
          · constructor
            · intro hnil
              rw [hnil] at he
              simp at he
            · intro c hc
              obtain ⟨hs, hm⟩ := ih1 c hc
              exact ⟨hs, hm.imp (List.mem_cons_of_mem _) (fun h => Or.inl h)⟩
          · obtain ⟨hne, hchar⟩ := ih2 w hw
            exact ⟨hne, fun c hc => ⟨(hchar c hc).1,
              ((hchar c hc).2).imp (List.mem_cons_of_mem _) id⟩⟩
        · rw [he] at hw
          simp only [if_pos] at hw
          obtain ⟨hne, hchar⟩ := ih2 w hw
          exact ⟨hne, fun c hc => ⟨(hchar c hc).1,
            ((hchar c hc).2).imp (List.mem_cons_of_mem _) id⟩⟩

theorem splitWs_words {l : List Char} {w : List Char} (hw : w ∈ splitWs l) :
    w ≠ [] ∧ ∀ c ∈ w, isSpacePy c = false ∧ c ∈ l := by
  have hinv := foldr_swAux_inv l ([], [])
    (fun c hc => absurd hc (List.not_mem_nil c))
    (fun w hw => absurd hw (List.not_mem_nil w))
  obtain ⟨h1, h2⟩ := hinv
  unfold splitWs swWrap at hw
  by_cases he : (l.foldr swAux ([], [])).1.isEmpty
  · simp only [he, if_pos] at hw
    obtain ⟨hne, hchar⟩ := h2 w hw
    refine ⟨hne, fun c hc => ?_⟩
    obtain ⟨hs, hm⟩ := hchar c hc
    rcases hm with hm | hm | ⟨w', hw', _⟩
    · exact ⟨hs, hm⟩
    · simp at hm
    · simp at hw'
  · simp only [he, Bool.false_eq_true, if_neg, not_false_iff] at hw
    simp only [List.mem_cons] at hw
    rcases hw with rfl | hw
    · refine ⟨fun hnil => by rw [hnil] at he; simp at he, fun c hc => ?_⟩
      obtain ⟨hs, hm⟩ := h1 c hc
      rcases hm with hm | hm
      · exact ⟨hs, hm⟩
      · simp at hm
    · obtain ⟨hne, hchar⟩ := h2 w hw
      refine ⟨hne, fun c hc => ?_⟩
      obtain ⟨hs, hm⟩ := hchar c hc
      rcases hm with hm | hm | ⟨w', hw', _⟩
      · exact ⟨hs, hm⟩
      · simp at hm
      · simp at hw'

theorem foldr_word {w : List Char} (R : List (List Char)) (hne : w ≠ [])
    (hns : ∀ c ∈ w, isSpacePy c = false) :
    w.foldr swAux ([], R) = (w, R) := by
  induction w with
  | nil => exact absurd rfl hne
  | cons c w ih =>
    have hc : isSpacePy c = false := hns c (List.mem_cons_self _ _)
    rcases w with _ | ⟨d, w'⟩
    · simp [swAux, hc]
    · have ihw := ih (by simp) (fun x hx => hns x (List.mem_cons_of_mem _ hx))
      rw [List.foldr_cons, ihw]
      simp [swAux, hc]

theorem joinSp_cons_cons (w w' : List Char) (t : List (List Char)) :
    joinSp (w :: w' :: t) = w ++ ' ' :: joinSp (w' :: t) := by
  simp [joinSp, joinSp.joinSpAux]

theorem foldr_joinSp (ws : List (List Char))
    (hws : ∀ w ∈ ws, w ≠ [] ∧ ∀ c ∈ w, isSpacePy c = false) :
    (joinSp ws).foldr swAux ([], []) =
      (match ws with | [] => ([], []) | w :: t => (w, t)) := by
  induction ws with
  | nil => rfl
  | cons w t ih =>
    obtain ⟨hne, hns⟩ := hws w (List.mem_cons_self _ _)
    rcases t with _ | ⟨w', t'⟩
    · show (joinSp [w]).foldr swAux ([], []) = (w, [])
      have hj : joinSp [w] = w := by simp [joinSp, joinSp.joinSpAux]
      rw [hj]
      exact foldr_word [] hne hns
    · have iht := ih (fun x hx => hws x (List.mem_cons_of_mem _ hx))
      rw [joinSp_cons_cons, List.foldr_append]
      have hw' : w' ≠ [] := (hws w' (by simp)).1
      rw [List.foldr_cons, iht]
      have hsw : swAux ' ' (w', t') = ([], w' :: t') := by
        have hie : (w' : List Char).isEmpty = false := by
          rcases w' with _ | _
          · exact absurd rfl hw'
          · rfl
        simp [swAux, isSpacePy, pySpaceChars, hie]
      rw [hsw]
      exact foldr_word (w' :: t') hne hns

theorem splitWs_joinSp (ws : List (List Char))
    (hws : ∀ w ∈ ws, w ≠ [] ∧ ∀ c ∈ w, isSpacePy c = false) :
    splitWs (joinSp ws) = ws := by
  unfold splitWs
  rw [foldr_joinSp ws hws]
  rcases ws with _ | ⟨w, t⟩
  · rfl
  · have hne : (w : List Char).isEmpty = false := by
      rcases w with _ | _
      · exact absurd rfl (hws [] (by simp)).1
      · rfl
    simp [swWrap, hne]

theorem splitWs_cons_space {c : Char} (l : List Char)
    (hc : isSpacePy c = true) : splitWs (c :: l) = splitWs l := by
  rcases hr : l.foldr swAux ([], []) with ⟨r1, r2⟩
  simp only [splitWs, List.foldr_cons, hr, swAux, hc, if_pos, swWrap]
  rcases he : r1.isEmpty with _ | _ <;> simp [he]

theorem foldr_all_space (l : List Char)
    (h : ∀ c ∈ l, isSpacePy c = true) :
    l.foldr swAux ([], []) = ([], []) := by
  induction l with
  | nil => rfl
  | cons c l ih =>
    rw [List.foldr_cons, ih (fun x hx => h x (List.mem_cons_of_mem _ hx))]
    simp [swAux, h c (List.mem_cons_self _ _)]

theorem splitWs_append_space (l t : List Char)
    (h : ∀ c ∈ t, isSpacePy c = true) :
    splitWs (l ++ t) = splitWs l := by
  unfold splitWs
  rw [List.foldr_append, foldr_all_space t h]

theorem splitWs_dropWhile (l : List Char) :
    splitWs (l.dropWhile isSpacePy) = splitWs l := by
  induction l with
  | nil => rfl
  | cons c l ih =>
    rcases hc : isSpacePy c with _ | _
    · simp [List.dropWhile_cons, hc]
    · simp only [List.dropWhile_cons, hc, if_pos]
      rw [ih, splitWs_cons_space l hc]

theorem splitWs_pyStrip (l : List Char) :
    splitWs (pyStrip l) = splitWs l := by
  unfold pyStrip
  rw [← splitWs_dropWhile l]
  have hdec := List.takeWhile_append_dropWhile isSpacePy
    (l.dropWhile isSpacePy).reverse
  have hA : l.dropWhile isSpacePy =
      ((l.dropWhile isSpacePy).reverse.dropWhile isSpacePy).reverse ++
        ((l.dropWhile isSpacePy).reverse.takeWhile isSpacePy).reverse := by
    have := congrArg List.reverse hdec
    rw [List.reverse_append, List.reverse_reverse] at this
    exact this.symm
  conv_rhs => rw [hA]
  rw [splitWs_append_space]
  intro c hc
  rw [List.mem_reverse] at hc
  exact List.mem_takeWhile_imp hc

theorem mem_pyStrip {c : Char} {l : List Char} (hc : c ∈ pyStrip l) :
    c ∈ l := by
  unfold pyStrip at hc
  rw [List.mem_reverse] at hc
  have h1 := (List.dropWhile_sublist isSpacePy).subset hc
  rw [List.mem_reverse] at h1
  exact (List.dropWhile_sublist isSpacePy).subset h1

theorem mem_joinSp {c : Char} {ws : List (List Char)} (hc : c ∈ joinSp ws) :
    c = ' ' ∨ ∃ w ∈ ws, c ∈ w := by
  induction ws with
  | nil => simp [joinSp] at hc
  | cons w t ih =>
    rcases t with _ | ⟨w', t'⟩
    · have hj : joinSp [w] = w := by simp [joinSp, joinSp.joinSpAux]
      rw [hj] at hc
      exact Or.inr ⟨w, by simp, hc⟩
    · rw [joinSp_cons_cons] at hc
      rcases List.mem_append.mp hc with h | h
      · exact Or.inr ⟨w, by simp, h⟩
      · rcases List.mem_cons.mp h with rfl | h
        · exact Or.inl rfl
        · rcases ih h with h | ⟨w'', hw'', hcw⟩
          · exact Or.inl h
          · exact Or.inr ⟨w'', List.mem_cons_of_mem _ hw'', hcw⟩

theorem flatMap_pipeChar_id (l : List Char)
    (h : ∀ c ∈ l, pipeChar c = [c]) : l.flatMap pipeChar = l := by
  induction l with
  | nil => rfl
  | cons c l ih =>
    rw [List.flatMap_cons, h c (List.mem_cons_self _ _),
      ih (fun x hx => h x (List.mem_cons_of_mem _ hx))]
    rfl

/-- Every character of a normalized string is a fixed point of the
lower+deaccent pipeline. -/
theorem mem_normalize_fixpoint {d : Char} {l : List Char}
    (hd : d ∈ normalize_for_comparison l) : pipeChar d = [d] := by
  unfold normalize_for_comparison at hd
  rw [remove_accents_pyLower] at hd
  have h1 := mem_pyStrip hd
  rcases mem_joinSp h1 with rfl | ⟨w, hw, hdw⟩
  · exact pipeChar_space (by rfl)
  · have h2 := (splitWs_words hw).2 d hdw
    rcases List.mem_flatMap.mp h2.2 with ⟨c, _, hdc⟩
    exact pipeChar_of_output hdc

/-- `normalize_for_comparison` is idempotent. -/
theorem normalize_for_comparison_idem (l : List Char) :
    normalize_for_comparison (normalize_for_comparison l) =
      normalize_for_comparison l := by
  conv_lhs => rw [normalize_for_comparison]
  rw [remove_accents_pyLower,
    flatMap_pipeChar_id _ (fun c hc => mem_normalize_fixpoint hc)]
  have hy : normalize_for_comparison l =
      pyStrip (joinSp (splitWs (remove_accents (pyLower l)))) := rfl
  rw [hy, splitWs_pyStrip, splitWs_joinSp _
    (fun w hw => ⟨(splitWs_words hw).1,
      fun c hc => ((splitWs_words hw).2 c hc).1⟩)]

theorem normalizeCityS_idem (s : String) :
    normalizeCityS (normalizeCityS s) = normalizeCityS s :=
  congrArg String.mk (normalize_for_comparison_idem s.data)

theorem pyStrip_nil_all_space {l : List Char} (h : pyStrip l = []) :
    ∀ c ∈ l, isSpacePy c = true := by
  unfold pyStrip at h
  rw [List.reverse_eq_nil_iff, List.dropWhile_eq_nil_iff] at h
  have hA : ∀ c ∈ l.dropWhile isSpacePy, isSpacePy c = true := by
    intro c hc
    exact h c (List.mem_reverse.mpr hc)
  intro c hc
  rw [← List.takeWhile_append_dropWhile isSpacePy l] at hc
  rcases List.mem_append.mp hc with hc | hc
  · exact List.mem_takeWhile_imp hc
  · exact hA c hc

theorem splitWs_all_space {l : List Char}
    (h : ∀ c ∈ l, isSpacePy c = true) : splitWs l = [] := by
  induction l with
  | nil => rfl
  | cons c l ih =>
    rw [splitWs_cons_space l (h c (List.mem_cons_self _ _))]
    exact ih (fun x hx => h x (List.mem_cons_of_mem _ hx))

theorem normalize_all_space {l : List Char}
    (h : ∀ c ∈ l, isSpacePy c = true) : normalize_for_comparison l = [] := by
  unfold normalize_for_comparison
  rw [remove_accents_pyLower,
    flatMap_pipeChar_id _ (fun c hc => pipeChar_space (h c hc)),
    splitWs_all_space h]
  rfl

/-- A non-blank input normalizes to a non-empty string only if it is not
all whitespace, and a non-empty normalized string is itself non-blank. -/
theorem pyBlank_false_of_normalize_ne {s : String}
    (h : normalizeCityS s ≠ "") : pyBlank s = false := by
  unfold pyBlank
  rcases hs : s.isEmpty with _ | _
  · rcases he : (pyStrip s.data).isEmpty with _ | _
    · rfl
    · exfalso
      apply h
      rw [List.isEmpty_iff] at he
      have := normalize_all_space (pyStrip_nil_all_space he)
      exact congrArg String.mk this
  · exfalso
    apply h
    rw [String.isEmpty_iff] at hs
    subst hs
    rfl

theorem pyBlank_normalize_false {s : String}
    (h : normalizeCityS s ≠ "") : pyBlank (normalizeCityS s) = false := by
  unfold pyBlank
  rcases hs : (normalizeCityS s).isEmpty with _ | _
  · rcases he : (pyStrip (normalizeCityS s).data).isEmpty with _ | _
    · rfl
    · exfalso
      rw [List.isEmpty_iff] at he
      have hall := pyStrip_nil_all_space he
      have hz := normalize_all_space hall
      rw [show (normalizeCityS s).data = normalize_for_comparison s.data
        from rfl, normalize_for_comparison_idem] at hz
      exact h (congrArg String.mk hz)
  · exfalso
    rw [String.isEmpty_iff] at hs
    exact h hs

theorem extract_city_variants_normalize (s : String) :
    extract_city_variants (normalizeCityS s) = extract_city_variants s := by
  unfold extract_city_variants
  rw [normalizeCityS_idem]

theorem variantLoop_status_congr (v : PostalCodeValidator)
    (c1 c2 province : String) (vs : List String) :
    (variantLoop v c1 province vs).status =
      (variantLoop v c2 province vs).status := by
  induction vs with
  | nil => rfl
  | cons w vs ih =>
    unfold variantLoop
    rcases dictGet v.variant_to_cities w with _ | cs
    · exact ih
    · dsimp only
      rcases findValidCity v province cs with _ | mc <;> rfl

/-- A small concrete reference index used for witnesses and
counterexamples, consistent with loading lines `28xMadrid` and
`08xBarcelona`. -/
def madridV : PostalCodeValidator :=
  { province_to_cities := [("28", ["Madrid"]), ("08", ["Barcelona"])]
    city_to_province := [("madrid", "28"), ("barcelona", "08")]
    variant_to_cities := [("madrid", ["Madrid"]), ("barcelona", ["Barcelona"])] }

/-- C9: `normalize_city` is idempotent: for every string `x`,
`normalize_city (normalize_city x) = normalize_city x`. -/
theorem C9_normalize_city_idempotent (x : String) :
    normalizeCityS (normalizeCityS x) = normalizeCityS x :=
  normalizeCityS_idem x

/-- C10 (amended): for every reference index, city `c` with non-empty
normalization, and postal code `p`, the matcher's `validate` returns the
same status for `(normalize_city c, p)` as for `(c, p)`. -/
theorem C10_validate_status_normalize_invariant (v : PostalCodeValidator)
    (city postal : String) (h : normalizeCityS city ≠ "") :
    (v.validate (normalizeCityS city) postal).status =
      (v.validate city postal).status := by
  have hb := pyBlank_false_of_normalize_ne h
  have hb' := pyBlank_normalize_false h
  unfold PostalCodeValidator.validate
  rw [hb, hb', if_neg Bool.false_ne_true, if_neg Bool.false_ne_true,
    normalizeCityS_idem, extract_city_variants_normalize]
  split
  · rfl
  · dsimp only
    split
    · rfl
    · split
      · rfl
      · split
        · split <;> rfl
        · exact variantLoop_status_congr v (normalizeCityS city) city _ _

/-- C10 witness: the amended invariance theorem applied at the concrete
index and inputs (`MADRID`, `28013`). -/
theorem C10_validate_status_normalize_invariant_witness :
    normalizeCityS "MADRID" ≠ "" ∧
      (madridV.validate (normalizeCityS "MADRID") "28013").status =
        (madridV.validate "MADRID" "28013").status :=
  ⟨by decide, C10_validate_status_normalize_invariant madridV "MADRID" "28013"
    (by decide)⟩

/-- C10 counterexample: for the city consisting of a single combining
acute accent (U+0301) — non-blank in Python's sense — normalization
yields the empty string, so `validate` returns UNKNOWN_CITY for the raw
city but MISSING_DATA for its normalized form: the status is NOT
invariant under normalization for every city string. -/
theorem C10_counterexample :
    (madridV.validate (normalizeCityS "\u0301") "28013").status ≠
      (madridV.validate "\u0301" "28013").status := by
  decide

/-- C3 counterexample: `"²²²²²"` is not a string of ASCII digits, yet
Python's `str.isdigit` accepts it, so `validate` proceeds to the
province lookup and returns INVALID (with the non-ASCII province prefix)
instead of the claimed MISSING_DATA. -/
theorem C3_counterexample :
    (pyStripS "²²²²²").data.all
        (fun c => decide ('0' ≤ c) && decide (c ≤ '9')) = false ∧
      (madridV.validate "Madrid" "²²²²²").status = ValidationStatus.INVALID ∧
      (madridV.validate "Madrid" "²²²²²").status ≠
        ValidationStatus.MISSING_DATA ∧
      (madridV.validate "Madrid" "²²²²²").province_code = some "²²" := by
  refine ⟨by decide, by decide, by decide, by decide⟩

/-- C3 (amended): for every reference index, non-blank city and non-blank
postal code, if the trimmed postal code is not a 5-character string of
digit characters in the sense of Python's `str.isdigit` (which also
accepts non-ASCII digits), `validate` returns MISSING_DATA. -/
theorem C3_bad_postal_format_missing_data (v : PostalCodeValidator)
    (city postal : String) (hc : pyBlank city = false)
    (hp : pyBlank postal = false)
    (hf : ¬(pyIsDigit (pyStripS postal) = true ∧ (pyStripS postal).length = 5)) :
    (v.validate city postal).status = ValidationStatus.MISSING_DATA := by
  unfold PostalCodeValidator.validate
  rw [hc, hp, if_neg Bool.false_ne_true, if_neg Bool.false_ne_true]
  dsimp only
  have hcond : (!pyIsDigit (pyStripS postal)
      || decide ((pyStripS postal).length ≠ 5)) = true := by
    rcases hd : pyIsDigit (pyStripS postal) with _ | _
    · rfl
    · have h5 : (pyStripS postal).length ≠ 5 := fun h5 => hf ⟨hd, h5⟩
      simp [h5]
  rw [if_pos hcond]

/-- C3 witness: the amended theorem applied at city "Madrid" and postal
code "abc". -/
theorem C3_bad_postal_format_missing_data_witness :
    (madridV.validate "Madrid" "abc").status = ValidationStatus.MISSING_DATA :=
  C3_bad_postal_format_missing_data madridV "Madrid" "abc" (by decide)
    (by decide) (by decide)

/-- C4: for every reference index, non-blank city and non-blank postal
code whose trimmed form is 5 digit characters but whose two-character
province prefix is not a key of the province→cities map, `validate`
returns INVALID (not MISSING_DATA, not UNKNOWN_CITY) with the prefix as
provinceCode, regardless of the city value. -/
theorem C4_unknown_province_invalid (v : PostalCodeValidator)
    (city postal : String) (hc : pyBlank city = false)
    (hp : pyBlank postal = false)
    (hf : pyIsDigit (pyStripS postal) = true)
    (hl : (pyStripS postal).length = 5)
    (hprov : dictGet v.province_to_cities ⟨(pyStripS postal).data.take 2⟩
      = none) :
    (v.validate city postal).status = ValidationStatus.INVALID ∧
      (v.validate city postal).province_code =
        some ⟨(pyStripS postal).data.take 2⟩ := by
  unfold PostalCodeValidator.validate
  rw [hc, hp, if_neg Bool.false_ne_true, if_neg Bool.false_ne_true]
  dsimp only
  have hcond : ¬((!pyIsDigit (pyStripS postal)
      || decide ((pyStripS postal).length ≠ 5)) = true) := by
    simp [hf, hl]
  rw [if_neg hcond]
  rw [hprov]
  exact ⟨rfl, rfl⟩

/-- C4 witness: province prefix "99" is not in the index, so
`validate("Madrid", "99001")` is INVALID with provinceCode "99". -/
theorem C4_unknown_province_invalid_witness :
    (madridV.validate "Madrid" "99001").status = ValidationStatus.INVALID ∧
      (madridV.validate "Madrid" "99001").province_code = some "99" := by
  have h := C4_unknown_province_invalid madridV "Madrid" "99001" (by decide)
    (by decide) (by decide) (by decide) (by decide)
  exact ⟨h.1, h.2.trans (by decide)⟩

/-- C7 counterexample: a `ParsedAddress` whose postcode field is the
whitespace-only string `" "` has `has_postcode = true` even though the
field is empty after trimming — the derived booleans do NOT trim. -/
theorem C7_counterexample :
    ({ raw := "Calle Mayor 5", postcode := some " " } :
        ParsedAddress).has_postcode = true ∧
      pyStripS " " = "" := by
  exact ⟨by decide, by decide⟩

/-- C7 (amended): `has_postcode`, `has_city` and `has_road` are true
exactly when the corresponding optional field is non-null and non-empty,
with NO trimming: a whitespace-only field yields `true`. -/
theorem C7_derived_booleans (p : ParsedAddress) :
    (p.has_postcode = true ↔ ∃ s, p.postcode = some s ∧ s ≠ "") ∧
      (p.has_city = true ↔ ∃ s, p.city = some s ∧ s ≠ "") ∧
      (p.has_road = true ↔ ∃ s, p.road = some s ∧ s ≠ "") := by
  have hlen : ∀ s : String, 0 < s.length ↔ s ≠ "" := by
    intro s
    show 0 < s.data.length ↔ s ≠ ""
    rw [List.length_pos]
    constructor
    · intro h he
      exact h (by rw [he])
    · intro h hd
      apply h
      cases s
      simp at hd
      rw [hd]
  refine ⟨?_, ?_, ?_⟩
  · unfold ParsedAddress.has_postcode
    rcases p.postcode with _ | s <;> simp [hlen]
  · unfold ParsedAddress.has_city
    rcases p.city with _ | s <;> simp [hlen]
  · unfold ParsedAddress.has_road
    rcases p.road with _ | s <;> simp [hlen]

/-- C6 counterexample: "San Pedro-Pinatar" satisfies every condition of
the claim (bare hyphen, no ",l\x27" suffix, no ",Las", no " - ", exactly
two parts both starting uppercase, length difference 2 < 5, first part
length 9 < 12), yet `_split_city_names` keeps it as ONE compound name:
the code additionally requires the first part to contain no whitespace. -/
theorem C6_counterexample :
    ",l'".data.isSuffixOf "San Pedro-Pinatar".data = false ∧
      containsSub ",Las".data "San Pedro-Pinatar".data = false ∧
      containsSub " - ".data "San Pedro-Pinatar".data = false ∧
      containsSub "-".data "San Pedro-Pinatar".data = true ∧
      splitSub "-".data "San Pedro-Pinatar".data =
        ["San Pedro".data, "Pinatar".data] ∧
      isUpperPy 'S' = true ∧ isUpperPy 'P' = true ∧
      (("San Pedro".length : Int) - ("Pinatar".length : Int)).natAbs < 5 ∧
      "San Pedro".length < 12 ∧
      split_city_names "San Pedro-Pinatar" = some ["San Pedro-Pinatar"] := by
  refine ⟨by decide, by decide, by decide, by decide, by decide, by decide,
    by decide, by decide, by decide, by decide⟩

/-- C6 (amended): when none of the earlier splitting rules applies, the
city contains a bare hyphen, the part before the first hyphen contains no
whitespace, the split has exactly two parts and both start with an
uppercase letter, the name is split into the two (stripped) parts exactly
when the parts\x27 length difference is < 5 and the first part\x27s length is
< 12; otherwise it is kept as one name. -/
theorem C6_bare_hyphen_split (city : String) (p0 p1 : List Char)
    (c0 c1 : Char)
    (h1 : ",l'".data.isSuffixOf city.data = false)
    (h2 : containsSub ",Las".data city.data = false)
    (h3 : containsSub " - ".data city.data = false)
    (h4 : containsSub "-".data city.data = true)
    (h5 : splitSub "-".data city.data = [p0, p1])
    (h6 : p0.any isSpacePy = false)
    (hc0 : p0.head? = some c0) (hu0 : isUpperPy c0 = true)
    (hc1 : p1.head? = some c1) (hu1 : isUpperPy c1 = true) :
    (((p0.length : Int) - (p1.length : Int)).natAbs < 5 ∧ p0.length < 12 →
      split_city_names city = some [⟨pyStrip p0⟩, ⟨pyStrip p1⟩]) ∧
    (¬(((p0.length : Int) - (p1.length : Int)).natAbs < 5 ∧ p0.length < 12) →
      split_city_names city = some [city]) := by
  unfold split_city_names
  rw [h1, if_neg Bool.false_ne_true]
  rw [h2, if_neg Bool.false_ne_true]
  rw [h3, if_neg Bool.false_ne_true]
  rw [h4, h5]
  have hguard : (true && !(([p0, p1].headD []).any isSpacePy)) = true := by
    simp [h6]
  rw [hguard, if_pos rfl]
  dsimp only
  rw [hc0]
  dsimp only
  rw [hu0, if_neg (by decide : ((!true) = true) -> False)]
  rw [hc1]
  dsimp only
  rw [hu1, if_neg (by decide : ((!true) = true) -> False)]
  constructor
  · intro hcond
    have : (decide (((p0.length : Int) - (p1.length : Int)).natAbs < 5) &&
        decide (p0.length < 12)) = true := by
      simp [hcond.1, hcond.2]
    rw [this, if_pos rfl]
  · intro hcond
    have : (decide (((p0.length : Int) - (p1.length : Int)).natAbs < 5) &&
        decide (p0.length < 12)) = false := by
      rcases Decidable.not_and_iff_or_not.mp hcond with h | h <;> simp [h]
    rw [this, if_neg Bool.false_ne_true]

/-- C6 witness: the amended rule applied to "Alacant-Alicante" (split)
-- the heuristic fires and yields the two names. -/
theorem C6_bare_hyphen_split_witness :
    split_city_names "Alacant-Alicante" = some ["Alacant", "Alicante"] := by
  have h := (C6_bare_hyphen_split "Alacant-Alicante" "Alacant".data
    "Alicante".data 'A' 'A' (by decide) (by decide) (by decide) (by decide)
    (by decide) (by decide) (by decide) (by decide) (by decide)
    (by decide)).1 (by decide)
  exact h.trans (by decide)

theorem findValidCity_isSome_iff (v : PostalCodeValidator)
    (province : String) (cs : List String) :
    (findValidCity v province cs).isSome =
      cs.any (fun mc =>
        decide (dictGet v.city_to_province (normalizeCityS mc)
          = some province)) := by
  induction cs with
  | nil => rfl
  | cons mc cs ih =>
    unfold findValidCity
    rcases hd : dictGet v.city_to_province (normalizeCityS mc) with _ | ep
    · dsimp only
      rw [List.any_cons, hd, ih]
      simp
    · dsimp only
      by_cases he : ep = province
      · subst he
        rw [List.any_cons, hd, if_pos rfl]
        simp
      · rw [if_neg he, List.any_cons, hd, ih]
        have hd2 : decide ((some ep : Option String) = some province)
            = false := by
          simp [he]
        rw [hd2]
        simp

theorem variantLoop_no_hit (v : PostalCodeValidator) (city province : String)
    (vs : List String)
    (h : vs.find? (fun w => (dictGet v.variant_to_cities w).isSome) = none) :
    variantLoop v city province vs =
      { status := .UNKNOWN_CITY
        message := "City '" ++ city ++ "' not found in database (province "
          ++ province ++ ")"
        province_code := some province
        expected_cities :=
          some ((dictGet v.province_to_cities province).getD []) } := by
  induction vs with
  | nil => rfl
  | cons w vs ih =>
    rw [List.find?_cons] at h
    rcases hp : (dictGet v.variant_to_cities w).isSome with _ | _
    · rw [hp] at h
      unfold variantLoop
      rcases hd : dictGet v.variant_to_cities w with _ | cs
      · exact ih h
      · rw [hd] at hp
        simp at hp
    · rw [hp] at h
      simp at h

theorem variantLoop_first_hit (v : PostalCodeValidator)
    (city province : String) (vs : List String) (w : String)
    (cs : List String)
    (hfind : vs.find? (fun w => (dictGet v.variant_to_cities w).isSome)
      = some w)
    (hcs : dictGet v.variant_to_cities w = some cs) :
    (cs.any (fun mc => decide (dictGet v.city_to_province (normalizeCityS mc)
        = some province)) = true →
      (variantLoop v city province vs).status = ValidationStatus.VALID) ∧
    (cs.any (fun mc => decide (dictGet v.city_to_province (normalizeCityS mc)
        = some province)) = false →
      (variantLoop v city province vs).status = ValidationStatus.INVALID ∧
      (variantLoop v city province vs).expected_cities =
        some ((dictGet v.province_to_cities province).getD [])) := by
  induction vs with
  | nil => simp at hfind
  | cons w' vs ih =>
    rw [List.find?_cons] at hfind
    rcases hp : (dictGet v.variant_to_cities w').isSome with _ | _
    · rw [hp] at hfind
      unfold variantLoop
      rcases hd : dictGet v.variant_to_cities w' with _ | cs'
      · exact ih hfind
      · rw [hd] at hp
        simp at hp
    · rw [hp] at hfind
      simp only [Option.some.injEq] at hfind
      subst hfind
      unfold variantLoop
      rw [hcs]
      dsimp only
      have hiff := findValidCity_isSome_iff v province cs
      rcases hfv : findValidCity v province cs with _ | matched_city
      · rw [hfv] at hiff
        constructor
        · intro hany
          rw [hany] at hiff
          simp at hiff
        · intro _
          exact ⟨rfl, rfl⟩
      · rw [hfv] at hiff
        constructor
        · intro _
          rfl
        · intro hany
          rw [hany] at hiff
          simp at hiff

/-- C1: once the matcher\x27s preconditions pass (non-blank city and postal
code, 5-digit format, known province), an exact normalized-city lookup
decides the result (VALID iff the provinces agree, otherwise INVALID
with the input province\x27s expected city list); the variant path runs only
on an exact miss, and the FIRST variant (in the order produced by
`extract_city_variants`) present in the variant map terminates the
search: VALID if any city of that variant\x27s bucket resolves to the input
province, otherwise immediately INVALID with the input province\x27s
expected city list; if no variant is present at all, UNKNOWN_CITY. -/
theorem C1_exact_precedence_variant_first_hit (v : PostalCodeValidator)
    (city postal : String)
    (hc : pyBlank city = false) (hp : pyBlank postal = false)
    (hf : pyIsDigit (pyStripS postal) = true)
    (hl : (pyStripS postal).length = 5)
    (pcs : List String)
    (hprov : dictGet v.province_to_cities
      ⟨(pyStripS postal).data.take 2⟩ = some pcs) :
    (∀ ep, dictGet v.city_to_province (normalizeCityS city) = some ep →
      (ep = (⟨(pyStripS postal).data.take 2⟩ : String) →
        (v.validate city postal).status = ValidationStatus.VALID) ∧
      (ep ≠ (⟨(pyStripS postal).data.take 2⟩ : String) →
        (v.validate city postal).status = ValidationStatus.INVALID ∧
        (v.validate city postal).expected_cities = some pcs)) ∧
    (dictGet v.city_to_province (normalizeCityS city) = none →
      ((extract_city_variants city).find?
          (fun w => (dictGet v.variant_to_cities w).isSome) = none →
        (v.validate city postal).status = ValidationStatus.UNKNOWN_CITY) ∧
      (∀ w cs, (extract_city_variants city).find?
          (fun w => (dictGet v.variant_to_cities w).isSome) = some w →
        dictGet v.variant_to_cities w = some cs →
        (cs.any (fun mc => decide (dictGet v.city_to_province
            (normalizeCityS mc)
            = some (⟨(pyStripS postal).data.take 2⟩ : String))) = true →
          (v.validate city postal).status = ValidationStatus.VALID) ∧
        (cs.any (fun mc => decide (dictGet v.city_to_province
            (normalizeCityS mc)
            = some (⟨(pyStripS postal).data.take 2⟩ : String))) = false →
          (v.validate city postal).status = ValidationStatus.INVALID ∧
          (v.validate city postal).expected_cities = some pcs))) := by
  have hval : v.validate city postal =
      (match dictGet v.province_to_cities
          (⟨(pyStripS postal).data.take 2⟩ : String) with
      | none =>
        { status := .INVALID
          message := "Unknown province code: "
            ++ (⟨(pyStripS postal).data.take 2⟩ : String)
          province_code := some ⟨(pyStripS postal).data.take 2⟩ }
      | some _ =>
        match dictGet v.city_to_province (normalizeCityS city) with
        | some expected_province =>
          if expected_province = (⟨(pyStripS postal).data.take 2⟩ : String)
          then
            { status := .VALID
              message := "City matches postal code province"
              province_code := some ⟨(pyStripS postal).data.take 2⟩ }
          else
            { status := .INVALID
              message := "City '" ++ city ++ "' belongs to province "
                ++ expected_province ++ ", not "
                ++ (⟨(pyStripS postal).data.take 2⟩ : String)
              province_code := some ⟨(pyStripS postal).data.take 2⟩
              expected_cities :=
                some ((dictGet v.province_to_cities
                  (⟨(pyStripS postal).data.take 2⟩ : String)).getD []) }
        | none =>
          variantLoop v city (⟨(pyStripS postal).data.take 2⟩ : String)
            (extract_city_variants city)) := by
    unfold PostalCodeValidator.validate
    rw [hc, hp, if_neg Bool.false_ne_true, if_neg Bool.false_ne_true]
    dsimp only
    have hcond : ((!pyIsDigit (pyStripS postal)
        || decide ((pyStripS postal).length ≠ 5)) = true) → False := by
      simp [hf, hl]
    rw [if_neg hcond]
  rw [hval, hprov]
  dsimp only
  constructor
  · intro ep hep
    rw [hep]
    dsimp only
    constructor
    · intro heq
      rw [if_pos heq]
    · intro hne
      rw [if_neg hne]
      exact ⟨rfl, rfl⟩
  · intro hnone
    rw [hnone]
    dsimp only
    constructor
    · intro hfind
      rw [variantLoop_no_hit v city _ _ hfind]
    · intro w cs hfind hcs
      have h := variantLoop_first_hit v city
        (⟨(pyStripS postal).data.take 2⟩ : String)
        (extract_city_variants city) w cs hfind hcs
      refine ⟨h.1, fun hany => ?_⟩
      obtain ⟨h1, h2⟩ := h.2 hany
      exact ⟨h1, by rw [h2, hprov]; rfl⟩

/-- C1 witness: the exact path at `("MADRID", "28013")` on the concrete
index: the exact normalized lookup hits province "28" and the result is
VALID. -/
theorem C1_exact_precedence_variant_first_hit_witness :
    (madridV.validate "MADRID" "28013").status = ValidationStatus.VALID := by
  have h := (C1_exact_precedence_variant_first_hit madridV "MADRID" "28013"
    (by decide) (by decide) (by decide) (by decide) ["Madrid"]
    (by decide)).1 "28" (by decide)
  exact h.1 (by decide)

/-- The priority order of rule violations used by the Orchestrator
(smaller = reported first). -/
def violationPriority : RuleViolation → Nat
  | .EMPTY_ADDRESS => 0
  | .TOO_SHORT => 1
  | .ONLY_NUMBERS => 2
  | .INVALID_POSTCODE_FORMAT => 3
  | .INVALID_POSTCODE_PROVINCE => 4
  | .NONE => 5

/-- The INVALID_FORMAT message the Orchestrator reports per violation. -/
def violationMessage : RuleViolation → String
  | .EMPTY_ADDRESS => "Address is empty"
  | .TOO_SHORT => "Address too short"
  | .ONLY_NUMBERS => "Address contains only numbers"
  | .INVALID_POSTCODE_FORMAT => "Invalid postal code format"
  | .INVALID_POSTCODE_PROVINCE => "Invalid postal code province (must be 01-52)"
  | .NONE => ""

/-- Every failed rule carries one of the five real violation kinds,
never NONE. -/
theorem get_violations_kinds {parsed : ParsedAddress} {r : RuleResult}
    (h : r ∈ get_violations parsed) :
    r.violation = RuleViolation.EMPTY_ADDRESS ∨
      r.violation = RuleViolation.TOO_SHORT ∨
      r.violation = RuleViolation.ONLY_NUMBERS ∨
      r.violation = RuleViolation.INVALID_POSTCODE_FORMAT ∨
      r.violation = RuleViolation.INVALID_POSTCODE_PROVINCE := by
  unfold get_violations validate_hard_rules at h
  rw [List.mem_filter] at h
  obtain ⟨hm, hv⟩ := h
  simp only [List.mem_cons, List.not_mem_nil, or_false] at hm
  rcases hm with rfl | rfl | rfl | rfl | rfl
  · unfold check_not_empty at hv ⊢
    try dsimp only at hv ⊢
    repeat' split
    all_goals simp_all
  · unfold check_minimum_length at hv ⊢
    try dsimp only at hv ⊢
    repeat' split
    all_goals simp_all
  · unfold check_not_only_numbers at hv ⊢
    try dsimp only at hv ⊢
    repeat' split
    all_goals simp_all
  · unfold check_postcode_format at hv ⊢
    try dsimp only at hv ⊢
    repeat' split
    all_goals simp_all
  · unfold check_postcode_province at hv ⊢
    try dsimp only at hv ⊢
    repeat' split
    all_goals simp_all

theorem contains_true_of_mem {k : RuleViolation} {ks : List RuleViolation}
    (h : k ∈ ks) : ks.contains k = true := by
  simpa [List.contains] using List.elem_iff.mpr h

theorem mem_of_contains_true {k : RuleViolation} {ks : List RuleViolation}
    (h : ks.contains k = true) : k ∈ ks :=
  List.elem_iff.mp (by simpa [List.contains] using h)

theorem contains_of_mem_violations {parsed : ParsedAddress}
    {r : RuleResult} (h : r ∈ get_violations parsed) :
    ((get_violations parsed).map (fun x => x.violation)).contains
      r.violation = true :=
  contains_true_of_mem (List.mem_map.mpr ⟨r, h, rfl⟩)

theorem mem_kinds_of_mem_map {parsed : ParsedAddress} {k : RuleViolation}
    (h : k ∈ (get_violations parsed).map (fun x => x.violation)) :
    k = RuleViolation.EMPTY_ADDRESS ∨ k = RuleViolation.TOO_SHORT ∨
      k = RuleViolation.ONLY_NUMBERS ∨
      k = RuleViolation.INVALID_POSTCODE_FORMAT ∨
      k = RuleViolation.INVALID_POSTCODE_PROVINCE := by
  rcases List.mem_map.mp h with ⟨r, hr, rfl⟩
  exact get_violations_kinds hr

/-- C2: whenever the parsed address has at least one hard-rule violation,
the Orchestrator returns terminal status INVALID_FORMAT, and the
reported message corresponds to a present violation of minimal priority
in the fixed order EMPTY_ADDRESS > TOO_SHORT > ONLY_NUMBERS >
INVALID_POSTCODE_FORMAT > INVALID_POSTCODE_PROVINCE (in particular an
empty address with a bad postcode province reports the emptiness). -/
theorem C2_hard_rule_priority (pa : String → List (String × String))
    (llm : LLMOracle) (use_llm : Bool) (v : PostalCodeValidator)
    (address city postcode : String)
    (hviol : get_violations (parse_or_use_existing pa address city postcode)
      ≠ []) :
    (AddressPipeline.validate pa llm use_llm v address city postcode).status
        = AddressStatus.INVALID_FORMAT ∧
      ∃ k, k ∈ (get_violations (parse_or_use_existing pa address city
          postcode)).map (fun x => x.violation) ∧
        (AddressPipeline.validate pa llm use_llm v address city
          postcode).message = violationMessage k ∧
        ∀ k' ∈ (get_violations (parse_or_use_existing pa address city
          postcode)).map (fun x => x.violation),
          violationPriority k ≤ violationPriority k' := by
  have hie : (get_violations (parse_or_use_existing pa address city
      postcode)).isEmpty = false := by
    rcases hi : (get_violations (parse_or_use_existing pa address city
        postcode)).isEmpty with _ | _
    · rfl
    · exact absurd (List.isEmpty_iff.mp hi) hviol
  unfold AddressPipeline.validate
  dsimp only
  rw [hie, if_pos (by decide : ((!false) = true))]
  rcases h1 : ((get_violations (parse_or_use_existing pa address city
      postcode)).map (fun x => x.violation)).contains
      RuleViolation.EMPTY_ADDRESS with _ | _
  case true =>
    rw [h1, if_pos rfl]
    exact ⟨rfl, RuleViolation.EMPTY_ADDRESS, mem_of_contains_true h1, rfl,
      fun k' _ => Nat.zero_le _⟩
  case false =>
  rw [h1, if_neg Bool.false_ne_true]
  rcases h2 : ((get_violations (parse_or_use_existing pa address city
      postcode)).map (fun x => x.violation)).contains
      RuleViolation.TOO_SHORT with _ | _
  case true =>
    rw [h2, if_pos rfl]
    refine ⟨rfl, RuleViolation.TOO_SHORT, mem_of_contains_true h2, rfl, ?_⟩
    intro k' hk'
    rcases mem_kinds_of_mem_map hk' with rfl | rfl | rfl | rfl | rfl
    · exact Bool.noConfusion ((contains_true_of_mem hk').symm.trans h1)
    all_goals decide
  case false =>
  rw [h2, if_neg Bool.false_ne_true]
  rcases h3 : ((get_violations (parse_or_use_existing pa address city
      postcode)).map (fun x => x.violation)).contains
      RuleViolation.ONLY_NUMBERS with _ | _
  case true =>
    rw [h3, if_pos rfl]
    refine ⟨rfl, RuleViolation.ONLY_NUMBERS, mem_of_contains_true h3, rfl, ?_⟩
    intro k' hk'
    rcases mem_kinds_of_mem_map hk' with rfl | rfl | rfl | rfl | rfl
    · exact Bool.noConfusion ((contains_true_of_mem hk').symm.trans h1)
    · exact Bool.noConfusion ((contains_true_of_mem hk').symm.trans h2)
    all_goals decide
  case false =>
  rw [h3, if_neg Bool.false_ne_true]
  rcases h4 : ((get_violations (parse_or_use_existing pa address city
      postcode)).map (fun x => x.violation)).contains
      RuleViolation.INVALID_POSTCODE_FORMAT with _ | _
  case true =>
    rw [h4, if_pos rfl]
    refine ⟨rfl, RuleViolation.INVALID_POSTCODE_FORMAT,
      mem_of_contains_true h4, rfl, ?_⟩
    intro k' hk'
    rcases mem_kinds_of_mem_map hk' with rfl | rfl | rfl | rfl | rfl
    · exact Bool.noConfusion ((contains_true_of_mem hk').symm.trans h1)
    · exact Bool.noConfusion ((contains_true_of_mem hk').symm.trans h2)
    · exact Bool.noConfusion ((contains_true_of_mem hk').symm.trans h3)
    all_goals decide
  case false =>
  rw [h4, if_neg Bool.false_ne_true]
  rcases h5 : ((get_violations (parse_or_use_existing pa address city
      postcode)).map (fun x => x.violation)).contains
      RuleViolation.INVALID_POSTCODE_PROVINCE with _ | _
  case true =>
    rw [h5, if_pos rfl]
    refine ⟨rfl, RuleViolation.INVALID_POSTCODE_PROVINCE,
      mem_of_contains_true h5, rfl, ?_⟩
    intro k' hk'
    rcases mem_kinds_of_mem_map hk' with rfl | rfl | rfl | rfl | rfl
    · exact Bool.noConfusion ((contains_true_of_mem hk').symm.trans h1)
    · exact Bool.noConfusion ((contains_true_of_mem hk').symm.trans h2)
    · exact Bool.noConfusion ((contains_true_of_mem hk').symm.trans h3)
    · exact Bool.noConfusion ((contains_true_of_mem hk').symm.trans h4)
    · decide
  case false =>
  exfalso
  obtain ⟨r, hr⟩ := List.exists_mem_of_ne_nil _ hviol
  have hc := contains_of_mem_violations hr
  rcases get_violations_kinds hr with hk | hk | hk | hk | hk <;>
    rw [hk] at hc <;> simp_all

/-- A trivial LLM oracle: classifies everything as a valid attempt and
rejects every unknown city. -/
def trivialLLM : LLMOracle :=
  { check_nonsense := fun _ =>
      { intent := .VALID_ATTEMPT, confidence := "high", explanation := "" }
    validate_city := fun _ _ _ =>
      { is_valid := false, normalized_city := none, explanation := "" } }

/-- C2 witness: the empty address has EMPTY_ADDRESS and TOO_SHORT (and
ONLY_NUMBERS) violations, and the pipeline reports the emptiness. -/
theorem C2_hard_rule_priority_witness :
    (AddressPipeline.validate (fun _ => []) trivialLLM false madridV
        "" "" "").status = AddressStatus.INVALID_FORMAT ∧
      (AddressPipeline.validate (fun _ => []) trivialLLM false madridV
        "" "" "").message = "Address is empty" := by
  have h := C2_hard_rule_priority (fun _ => []) trivialLLM false madridV
    "" "" "" (by decide)
  obtain ⟨hs, k, hk, hmsg, hmin⟩ := h
  refine ⟨hs, ?_⟩
  have hke : k = RuleViolation.EMPTY_ADDRESS := by
    have h0 := hmin RuleViolation.EMPTY_ADDRESS (by decide)
    rcases mem_kinds_of_mem_map hk with rfl | rfl | rfl | rfl | rfl <;>
      first
      | rfl
      | exact absurd h0 (by decide)
  rw [hmsg, hke]
  rfl

theorem pipelineStage5_status_ne (use_llm : Bool) (parsed : ParsedAddress)
    (r : PLValidationResult) :
    (pipelineStage5 use_llm parsed r).status ≠ AddressStatus.UNKNOWN := by
  have key : ∀ r1 : PLValidationResult,
      (if r1.status = AddressStatus.UNKNOWN then
        { r1 with status := .NEEDS_REVIEW
                  message := "Could not validate without LLM" }
      else r1).status ≠ AddressStatus.UNKNOWN := by
    intro r1
    by_cases hs : r1.status = AddressStatus.UNKNOWN
    · rw [if_pos hs]
      dsimp only
      decide
    · rw [if_neg hs]
      exact hs
  unfold pipelineStage5
  exact key _

theorem pipelineStage4_status_ne (llm : LLMOracle) (use_llm : Bool)
    (v : PostalCodeValidator) (parsed : ParsedAddress)
    (r : PLValidationResult) :
    (pipelineStage4 llm use_llm v parsed r).status
      ≠ AddressStatus.UNKNOWN := by
  unfold pipelineStage4
  split
  · dsimp only
    split
    · try dsimp only
      decide
    · try dsimp only
      decide
    · try dsimp only
      split
      · try dsimp only
        split
        · try dsimp only
          decide
        · try dsimp only
          decide
      · try dsimp only
        decide
    · apply pipelineStage5_status_ne
  · apply pipelineStage5_status_ne

theorem pipelineStage3_status_ne (llm : LLMOracle) (use_llm : Bool)
    (v : PostalCodeValidator) (parsed : ParsedAddress) (address : String)
    (r : PLValidationResult) :
    (pipelineStage3 llm use_llm v parsed address r).status
      ≠ AddressStatus.UNKNOWN := by
  unfold pipelineStage3
  dsimp only
  split
  · split
    · try dsimp only
      split
      · try dsimp only
        decide
      · split
        · try dsimp only
          decide
        · apply pipelineStage4_status_ne
    · apply pipelineStage4_status_ne
  · split
    · try dsimp only
      split
      · try dsimp only
        decide
      · split
        · try dsimp only
          decide
        · apply pipelineStage4_status_ne
    · apply pipelineStage4_status_ne

/-- C8: for every parser oracle, LLM oracle, classifier mode, reference
index and inputs, the Orchestrator never returns status UNKNOWN: every
path reaches one of the other six terminal statuses. -/
theorem C8_status_never_unknown (pa : String → List (String × String))
    (llm : LLMOracle) (use_llm : Bool) (v : PostalCodeValidator)
    (address city postcode : String) :
    (AddressPipeline.validate pa llm use_llm v address city postcode).status
      ≠ AddressStatus.UNKNOWN := by
  unfold AddressPipeline.validate
  dsimp only
  split
  · split
    · try dsimp only
      decide
    · split
      · try dsimp only
        decide
      · split
        · try dsimp only
          decide
        · split
          · try dsimp only
            decide
          · split
            · try dsimp only
              decide
            · apply pipelineStage3_status_ne
  · apply pipelineStage3_status_ne

theorem pipelineStage5_unknown_valid (parsed : ParsedAddress)
    (r : PLValidationResult) (hr : r.status = AddressStatus.UNKNOWN)
    (hc : parsed.has_city = true) :
    (pipelineStage5 true parsed r).status = AddressStatus.VALID := by
  unfold pipelineStage5
  have h1 : (true && decide (r.status = AddressStatus.UNKNOWN)) = true := by
    rw [hr]
    decide
  rw [if_pos h1]
  have h2 : (parsed.has_city || parsed.has_postcode) = true := by
    rw [hc]
    exact Bool.true_or _
  rw [if_pos h2]
  dsimp only
  rw [if_neg (by decide : ¬(AddressStatus.VALID = AddressStatus.UNKNOWN))]

theorem pipelineStage5_unknown_needs_review (parsed : ParsedAddress)
    (r : PLValidationResult) (hr : r.status = AddressStatus.UNKNOWN) :
    (pipelineStage5 false parsed r).status = AddressStatus.NEEDS_REVIEW := by
  unfold pipelineStage5
  have h1 : ¬((false && decide (r.status = AddressStatus.UNKNOWN)) = true)
    := by simp
  rw [if_neg h1]
  dsimp only
  rw [if_pos hr]

theorem pipelineStage4_missing_data (llm : LLMOracle) (use_llm : Bool)
    (v : PostalCodeValidator) (parsed : ParsedAddress)
    (r : PLValidationResult)
    (hc : parsed.has_city = true) (hp : parsed.has_postcode = true)
    (hmd : (v.validate (parsed.city.getD "")
      (parsed.postcode.getD "")).status = ValidationStatus.MISSING_DATA) :
    pipelineStage4 llm use_llm v parsed r =
      pipelineStage5 use_llm parsed
        { r with city_postal_status := some "missing_data" } := by
  unfold pipelineStage4
  have h1 : (parsed.has_city && parsed.has_postcode) = true := by
    rw [hc, hp]
    rfl
  rw [if_pos h1]
  dsimp only
  rw [hmd]
  rfl

theorem pipelineStage3_no_nonsense (llm : LLMOracle) (use_llm : Bool)
    (v : PostalCodeValidator) (parsed : ParsedAddress) (address : String)
    (r : PLValidationResult)
    (hintent : (llm.check_nonsense (if parsed.has_road = true then
      parsed.road.getD "" else address)).intent
      = AddressIntent.VALID_ATTEMPT) :
    ∃ r', pipelineStage3 llm use_llm v parsed address r =
        pipelineStage4 llm use_llm v parsed r' ∧ r'.status = r.status := by
  unfold pipelineStage3
  dsimp only
  by_cases hC : (use_llm && !(if parsed.has_road = true then
      parsed.road.getD "" else address).isEmpty) = true
  · rw [if_pos hC]
    rw [hintent]
    rw [if_neg (by decide :
      ¬((decide (AddressIntent.VALID_ATTEMPT = AddressIntent.GIBBERISH) ||
        decide (AddressIntent.VALID_ATTEMPT = AddressIntent.TEST_DATA))
        = true))]
    rw [if_neg (by decide :
      ¬(AddressIntent.VALID_ATTEMPT = AddressIntent.REFUSAL))]
    exact ⟨_, rfl, rfl⟩
  · rw [if_neg hC]
    exact ⟨r, rfl, rfl⟩

def wsParse : String → List (String × String) :=
  fun _ => [("Calle Mayor", "road"), (" ", "city"), ("28013", "postcode")]

/-- C5 counterexample: with the classifier enabled, a parser oracle that
yields a whitespace-only city makes the matcher return MISSING_DATA at
step 3 (both `has_city` and `has_postcode` hold since they do not trim),
and the pipeline falls through to the fallback and returns VALID, not
the claimed NEEDS_REVIEW. -/
theorem C5_counterexample :
    (AddressPipeline.validate wsParse trivialLLM true madridV
        "Calle Mayor 5" "" "").city_postal_status = some "missing_data" ∧
      (AddressPipeline.validate wsParse trivialLLM true madridV
        "Calle Mayor 5" "" "").status = AddressStatus.VALID ∧
      (AddressPipeline.validate wsParse trivialLLM true madridV
        "Calle Mayor 5" "" "").status ≠ AddressStatus.NEEDS_REVIEW := by
  refine ⟨by decide, by decide, by decide⟩

/-- C5 (amended): when step 3 is entered (hard rules pass, no nonsense
short-circuit, city and postcode present) and the matcher returns
MISSING_DATA, no branch of step 3 handles it: the pipeline falls through
to the final fallback, returning VALID when the external classifier is
enabled and NEEDS_REVIEW when it is disabled. -/
theorem C5_missing_data_falls_through
    (pa : String → List (String × String)) (llm : LLMOracle)
    (v : PostalCodeValidator) (address city postcode : String)
    (hviol : get_violations (parse_or_use_existing pa address city postcode)
      = [])
    (hintent : (llm.check_nonsense
      (if (parse_or_use_existing pa address city postcode).has_road = true
        then (parse_or_use_existing pa address city postcode).road.getD ""
        else address)).intent = AddressIntent.VALID_ATTEMPT)
    (hcity : (parse_or_use_existing pa address city postcode).has_city
      = true)
    (hpost : (parse_or_use_existing pa address city postcode).has_postcode
      = true)
    (hmd : (v.validate
      ((parse_or_use_existing pa address city postcode).city.getD "")
      ((parse_or_use_existing pa address city postcode).postcode.getD
        "")).status = ValidationStatus.MISSING_DATA) :
    (AddressPipeline.validate pa llm true v address city postcode).status
        = AddressStatus.VALID ∧
      (AddressPipeline.validate pa llm false v address city postcode).status
        = AddressStatus.NEEDS_REVIEW := by
  constructor
  · unfold AddressPipeline.validate
    dsimp only
    rw [hviol]
    rw [if_neg (by decide : ¬((!(List.isEmpty ([] : List RuleResult)))
      = true))]
    obtain ⟨r', heq, hst⟩ := pipelineStage3_no_nonsense llm true v
      (parse_or_use_existing pa address city postcode) address _ hintent
    rw [heq, pipelineStage4_missing_data llm true v _ r' hcity hpost hmd]
    exact pipelineStage5_unknown_valid _ _ (by rw [hst]) hcity
  · unfold AddressPipeline.validate
    dsimp only
    rw [hviol]
    rw [if_neg (by decide : ¬((!(List.isEmpty ([] : List RuleResult)))
      = true))]
    unfold pipelineStage3
    dsimp only
    rw [if_neg (by simp : ¬((false && !(if (parse_or_use_existing pa address
      city postcode).has_road = true
      then (parse_or_use_existing pa address city postcode).road.getD ""
      else address).isEmpty) = true))]
    rw [pipelineStage4_missing_data llm false v _ _ hcity hpost hmd]
    exact pipelineStage5_unknown_needs_review _ _ rfl

/-- C5 witness: the amended fall-through behavior at the concrete
whitespace-city scenario. -/
theorem C5_missing_data_falls_through_witness :
    (AddressPipeline.validate wsParse trivialLLM true madridV
        "Calle Mayor 5" "" "").status = AddressStatus.VALID ∧
      (AddressPipeline.validate wsParse trivialLLM false madridV
        "Calle Mayor 5" "" "").status = AddressStatus.NEEDS_REVIEW :=
  C5_missing_data_falls_through wsParse trivialLLM madridV
    "Calle Mayor 5" "" "" (by decide) (by decide) (by decide) (by decide)
    (by decide)

end AddressFixer
